import Mathlib

/-!
Verification of the ESP32 BLE WiFi-provisioning mobile application.

The source is a React-Native app (`src/services/BLEManager.ts`,
`src/components/DeviceDetails.tsx`, plus two scanner-screen variants).
Byte strings (JavaScript strings holding `atob`-decoded payloads) are
modelled as `List Nat`, one entry per UTF-16 code unit (all payloads are
in the 0..255 byte range).  Pure parsing and encoding functions are
carried over directly; the asynchronous UI flows are modelled as traces
of abstract actions, and the 40-second-timeout handling as an explicit
step function on the component's `SetupState`.
-/

/-- Byte-code list of an ASCII string literal, one `Nat` per character. -/
def strBytes (s : String) : List Nat := s.data.map Char.toNat

/-- JavaScript whitespace characters in the byte range 0..255, as used by
`String.prototype.trim` (tab, LF, VT, FF, CR, space, NBSP). -/
def isJsWs (c : Nat) : Bool :=
  decide (c = 9 ∨ c = 10 ∨ c = 11 ∨ c = 12 ∨ c = 13 ∨ c = 32 ∨ c = 160)

/-- JavaScript `String.prototype.trim`: drop leading and trailing whitespace. -/
def jsTrim (s : List Nat) : List Nat :=
  ((s.dropWhile isJsWs).reverse.dropWhile isJsWs).reverse

/-- JavaScript `String.prototype.toLowerCase` restricted to the byte range:
ASCII `A`-`Z` and Latin-1 `À`-`Þ` (except `×`) map down by 32. -/
def jsToLower (c : Nat) : Nat :=
  if 65 ≤ c ∧ c ≤ 90 then c + 32
  else if 192 ≤ c ∧ c ≤ 222 ∧ c ≠ 215 then c + 32
  else c

/-- `message.toLowerCase().trim()` as computed in `setupWiFiNotification`. -/
def lowerOf (msg : List Nat) : List Nat := jsTrim (msg.map jsToLower)

/-- JavaScript `String.prototype.startsWith` on byte lists. -/
def jsStartsWith (pat s : List Nat) : Bool := s.take pat.length == pat

/-- JavaScript `String.prototype.includes` on byte lists: `pat` occurs as a
contiguous substring of `s`. -/
def jsIncludes (s pat : List Nat) : Bool :=
  (List.range (s.length + 1)).any fun i => (s.drop i).take pat.length == pat

/-- JavaScript `String.prototype.replace` with a plain-string pattern:
replace the first occurrence of `pat` in `s` by `repl`
(used as `device.name.replace('GC-', '')` in `scanForDevices`). -/
def replaceFirst (pat repl : List Nat) : List Nat → List Nat
  | [] => if pat == ([] : List Nat) then repl else []
  | c :: rest =>
    if jsStartsWith pat (c :: rest) then repl ++ (c :: rest).drop pat.length
    else c :: replaceFirst pat repl rest

/-- One segment of the 0x06-separated WiFi list:
`part.replace(/\x00/g, '').trim()` in `parseWiFiNetworks`. -/
def cleanSegment (s : List Nat) : List Nat := jsTrim (s.filter fun c => c != 0)

/-- The length filter of the 0x06 branch of `parseWiFiNetworks`:
`cleaned.length >= 3 && cleaned.length <= 32`. -/
def segmentOk (s : List Nat) : Bool :=
  decide (3 ≤ s.length) && decide (s.length ≤ 32)

/-- The final deduplication step of `parseWiFiNetworks`:
`networks.filter((network, index, arr) => arr.indexOf(network) === index)`.
An element is kept iff it does not occur at an earlier index; `seen` is the
prefix of elements already inspected. -/
def keepFirstsAux (seen : List (List Nat)) : List (List Nat) → List (List Nat)
  | [] => []
  | x :: xs =>
    if x ∈ seen then keepFirstsAux (seen ++ [x]) xs
    else x :: keepFirstsAux (seen ++ [x]) xs

/-- `BLEService.parseWiFiNetworks` from `src/services/BLEManager.ts`:
split priority 0x06, then comma, then newline, then whole-payload;
the 0x06 branch additionally strips NUL bytes and caps segment length at 32;
finally duplicates are removed keeping the first occurrence. -/
def parseWiFiNetworks (rawData : List Nat) : List (List Nat) :=
  keepFirstsAux []
    (if rawData.contains 6 then
      ((rawData.splitOn 6).map cleanSegment).filter segmentOk
     else if rawData.contains 44 then
      ((rawData.splitOn 44).map jsTrim).filter fun s => decide (3 ≤ s.length)
     else if rawData.contains 10 then
      ((rawData.splitOn 10).map jsTrim).filter fun s => decide (3 ≤ s.length)
     else if 3 ≤ (jsTrim rawData).length then [jsTrim rawData]
     else [])

/-- Deduplication in the spec's words: keep each network's first occurrence,
removing every later duplicate, preserving order. -/
def dedupFirst : List (List Nat) → List (List Nat)
  | [] => []
  | x :: xs => x :: (dedupFirst xs).filter fun y => y != x

/-- The spec's description of the 0x06 branch of the WiFi-list parser:
split on 0x06, strip NUL bytes and surrounding whitespace from each segment,
keep segments of length in [3,32] in original order, deduplicated keeping
first occurrences. -/
def specParse06 (raw : List Nat) : List (List Nat) :=
  dedupFirst (((raw.splitOn 6).map cleanSegment).filter segmentOk)

/-- Classification result of a BLE notification payload:
`configureWiFi`'s listener either reports success (`'WIFI_SUCCESS'`)
or passes the raw decoded text through to the caller. -/
inductive NotificationEvent
  | wifiConfirmed
  | other (raw : List Nat)
deriving DecidableEq

/-- The `isWifiOk` disjunction of `setupWiFiNotification`
(`src/services/BLEManager.ts:297-304`), verbatim:
three substring tests on the lowercased+trimmed text, two equality tests on
it, and three equality tests on the merely-trimmed text. -/
def isWifiOk (msg : List Nat) : Bool :=
  jsIncludes (lowerOf msg) (strBytes ("wifi_ok")) ||
  jsIncludes (lowerOf msg) (strBytes ("wifi ok")) ||
  jsIncludes (lowerOf msg) (strBytes ("wifiok")) ||
  lowerOf msg == strBytes ("wifi_ok") ||
  lowerOf msg == strBytes ("ok") ||
  jsTrim msg == strBytes ("Wifi_OK") ||
  jsTrim msg == strBytes ("wifi_ok") ||
  jsTrim msg == strBytes ("OK")

/-- The notification listener's visible behaviour: confirmed payloads are
collapsed to a success event, anything else is passed through unchanged. -/
def classifyNotification (msg : List Nat) : NotificationEvent :=
  if isWifiOk msg then .wifiConfirmed else .other msg

/-- A word character in the usual regex sense (for the spec's
"whole-word substring" reading): letters, digits, underscore. -/
def wordChar (c : Nat) : Bool :=
  decide ((48 ≤ c ∧ c ≤ 57) ∨ (65 ≤ c ∧ c ≤ 90) ∨ (97 ≤ c ∧ c ≤ 122) ∨ c = 95)

/-- `pat` occurs in `s` at index `i` with word boundaries on both sides. -/
def wholeWordAt (pat s : List Nat) (i : Nat) : Bool :=
  ((s.drop i).take pat.length == pat) &&
  (decide (i = 0) || !wordChar (s.getD (i - 1) 0)) &&
  (decide (i + pat.length = s.length) || !wordChar (s.getD (i + pat.length) 0))

/-- `pat` occurs somewhere in `s` as a whole word. -/
def containsWholeWord (pat s : List Nat) : Bool :=
  (List.range (s.length + 1)).any (wholeWordAt pat s)

/-- The claim's classification condition, in the spec's words: the
lowercased+trimmed text equals, or contains as a whole-word substring, one of
the four accepted confirmation tokens. -/
def wifiConfirmedClaim (msg : List Nat) : Bool :=
  [strBytes ("wifi_ok"), strBytes ("wifi ok"), strBytes ("wifiok"),
   strBytes ("ok")].any fun tok =>
    lowerOf msg == tok || containsWholeWord tok (lowerOf msg)

/-- The amended classification condition: the lowercased+trimmed text contains
`wifi_ok`, `wifi ok` or `wifiok` as a plain substring, or equals `ok`. -/
def wifiConfirmedAmended (msg : List Nat) : Bool :=
  jsIncludes (lowerOf msg) (strBytes ("wifi_ok")) ||
  jsIncludes (lowerOf msg) (strBytes ("wifi ok")) ||
  jsIncludes (lowerOf msg) (strBytes ("wifiok")) ||
  lowerOf msg == strBytes ("ok")

/-- Character of the standard base64 alphabet at index `n < 64`. -/
def b64Char (n : Nat) : Nat :=
  if n < 26 then 65 + n
  else if n < 52 then 97 + (n - 26)
  else if n < 62 then 48 + (n - 52)
  else if n = 62 then 43
  else 47

/-- JavaScript `btoa`: base64-encode a byte list (with `=` padding). -/
def btoa : List Nat → List Nat
  | [] => []
  | [b1] => [b64Char (b1 / 4), b64Char (b1 % 4 * 16), 61, 61]
  | [b1, b2] =>
    [b64Char (b1 / 4), b64Char (b1 % 4 * 16 + b2 / 16), b64Char (b2 % 16 * 4), 61]
  | b1 :: b2 :: b3 :: rest =>
    b64Char (b1 / 4) :: b64Char (b1 % 4 * 16 + b2 / 16) ::
    b64Char (b2 % 16 * 4 + b3 / 64) :: b64Char (b3 % 64) :: btoa rest

/-- Index of a base64 alphabet character (0 for characters outside it). -/
def b64Val (c : Nat) : Nat :=
  if 65 ≤ c ∧ c ≤ 90 then c - 65
  else if 97 ≤ c ∧ c ≤ 122 then c - 97 + 26
  else if 48 ≤ c ∧ c ≤ 57 then c - 48 + 52
  else if c = 43 then 62
  else if c = 47 then 63
  else 0

/-- JavaScript `atob`: base64-decode back to a byte list. -/
def atob : List Nat → List Nat
  | c1 :: c2 :: c3 :: c4 :: rest =>
    if c3 = 61 then [b64Val c1 * 4 + b64Val c2 / 16]
    else if c4 = 61 then
      [b64Val c1 * 4 + b64Val c2 / 16, b64Val c2 % 16 * 16 + b64Val c3 / 4]
    else
      (b64Val c1 * 4 + b64Val c2 / 16) :: (b64Val c2 % 16 * 16 + b64Val c3 / 4) ::
      (b64Val c3 % 4 * 64 + b64Val c4) :: atob rest
  | _ => []

/-- The credential command of `configureWiFi`:
`` `_UWF:${ssid}\x06${password}\x04` ``. -/
def credentialCommand (ssid password : List Nat) : List Nat :=
  strBytes ("_UWF:") ++ ssid ++ [6] ++ password ++ [4]

/-- The payload actually written to the CE02 characteristic:
`btoa(command)` in `configureWiFi`. -/
def configureWiFiPayload (ssid password : List Nat) : List Nat :=
  btoa (credentialCommand ssid password)

/-- The END command of `sendEndCommand`: `'_END.*\x04'`. -/
def endCommand : List Nat := strBytes ("_END.*") ++ [4]

/-- A raw advertisement as delivered to the scan callback of
`scanForDevices`: the transport id, the advertised name (`device.name` may be
null), and the RSSI (`device.rssi` may be null). -/
structure ScannedAd where
  id : List Nat
  name : Option (List Nat)
  rssi : Option Int
deriving DecidableEq

/-- `ESP32Device` from `src/services/BLEManager.ts`. -/
structure ESP32Device where
  id : List Nat
  name : List Nat
  rssi : Int
  serialNumber : Option (List Nat)
deriving DecidableEq

/-- `DEVICE_NAME_PREFIX = 'GC-'`. -/
def gcPre : List Nat := strBytes ("GC-")

/-- `device.rssi || -100`: JavaScript `||` treats both `null` and `0` as
falsy, so an RSSI of 0 is replaced by -100 as well. -/
def jsRssiOr : Option Int → Int
  | none => -100
  | some r => if r = 0 then -100 else r

/-- The mock registration validator `validateDeviceRegistration`:
`serialNumber.length >= 3 && /^[A-Z0-9]+$/.test(serialNumber)`. -/
def validateDeviceRegistration (serial : List Nat) : Bool :=
  decide (3 ≤ serial.length) &&
  (serial != ([] : List Nat) &&
   serial.all fun c => decide ((65 ≤ c ∧ c ≤ 90) ∨ (48 ≤ c ∧ c ≤ 57)))

/-- The per-advertisement body of the `scanForDevices` callback:
given the set of ids already surfaced (`foundDevices`) and an advertisement,
return the device surfaced to `onDeviceFound`, or `none` when the
advertisement is filtered out. -/
def scanCallback (found : List (List Nat)) (ad : ScannedAd) : Option ESP32Device :=
  match ad.name with
  | none => none
  | some nm =>
    if jsStartsWith gcPre nm then
      if found.contains ad.id then none
      else
        if validateDeviceRegistration (replaceFirst gcPre [] nm) then
          some { id := ad.id, name := nm, rssi := jsRssiOr ad.rssi,
                 serialNumber := some (replaceFirst gcPre [] nm) }
        else none
    else none

/-- `SetupState` from `src/components/DeviceDetails.tsx`. -/
inductive SetupState
  | connecting
  | readingWiFiList
  | configuringWiFi
  | waitingForConnection
  | success
  | error
deriving DecidableEq

/-- Abstract actions performed by the `DeviceDetails` provisioning flow, in
program order. -/
inductive ProvAction
  | setState (s : SetupState)
  | armListener
  | readList
  | writeCreds
  | armTimer
  | writeEnd
  | registerDevice
  | disconnect
  | surfaceError
deriving DecidableEq

/-- Trace of the component's `readWiFiList` (`DeviceDetails.tsx:103-121`):
enter the reading state, perform the read, then either show the config form
or surface an error. -/
def readWiFiListTrace (readOk : Bool) : List ProvAction :=
  [.setState .readingWiFiList, .readList] ++
    (if readOk then [.setState .configuringWiFi] else [.setState .error])

/-- Trace of `connectToDevice` (`DeviceDetails.tsx:54-101`): enter the
connecting state, arm the notification listener via
`BLEManager.setupWiFiNotification` (which throws when it cannot subscribe),
and only then read the WiFi list; a setup failure surfaces an error. -/
def connectToDeviceTrace (setupOk readOk : Bool) : List ProvAction :=
  .setState .connecting ::
    (if setupOk then .armListener :: readWiFiListTrace readOk
     else [.setState .error])

/-- Trace of `sendWiFiCredentials` (`DeviceDetails.tsx:127-177`): with empty
SSID or password only an alert is shown; otherwise enter the waiting state,
write the credentials, and arm the 40s timer on success or surface an error
on failure. -/
def sendWiFiCredentialsTrace (ssidOk pwOk sent : Bool) : List ProvAction :=
  if ssidOk && pwOk then
    [.setState .waitingForConnection, .writeCreds] ++
      (if sent then [.armTimer] else [.setState .error])
  else []

/-- A full provisioning session of `DeviceDetails`: the connect phase,
followed by a credential submission, which the form permits only when the
connect phase reached the `configuringWiFi` state. -/
def sessionTrace (setupOk readOk submit ssidOk pwOk sent : Bool) : List ProvAction :=
  connectToDeviceTrace setupOk readOk ++
    (if setupOk && readOk && submit then sendWiFiCredentialsTrace ssidOk pwOk sent
     else [])

/-- Trace of `completeSetup` (`DeviceDetails.tsx:217-273`): send the END
frame, then add the device to the system, then disconnect; the first failing
step throws into the catch block, which surfaces the error and rolls nothing
back. -/
def completeSetupTrace (endOk regOk : Bool) : List ProvAction :=
  .writeEnd ::
    (if endOk then
      .registerDevice :: (if regOk then [.disconnect] else [.surfaceError])
     else [.surfaceError])

/-- `occursBefore pre target seen l = true` iff every occurrence of `target`
in `l` is preceded (strictly) by an occurrence of `pre`; `seen` records
whether `pre` already occurred. -/
def occursBefore (pre target : ProvAction) (seen : Bool) : List ProvAction → Bool
  | [] => true
  | a :: rest =>
    if a = target then seen && occursBefore pre target (seen || a = pre) rest
    else occursBefore pre target (seen || a = pre) rest

/-- Events that can reach the component while it waits for the WiFi
confirmation notification.  The timer event carries the `currentState` value
that the `setTimeout` callback's closure captured when `sendWiFiCredentials`
created it — React state hooks give the closure the render-time value, not a
live reference. -/
inductive WaitEvent
  | confirmNotif
  | timerFire (captured : SetupState)
  | dialogCancel
  | dialogProceed
deriving DecidableEq

/-- The waiting-phase dynamics of `DeviceDetails`: pairs `(state, dialog)`
where `dialog` records whether the manual-proceed dialog is showing.
A `WIFI_SUCCESS` notification moves to `success` (`onWiFiConnected`); the
40s timer callback checks its closure-captured `currentState` against
`waitingForConnection` and shows the manual-proceed dialog
(`showManualProceedDialog`) only when they match; cancelling the dialog
surfaces the timeout error; accepting it force-advances to `success`. -/
def waitStep : SetupState × Bool → WaitEvent → SetupState × Bool
  | (_, d), .confirmNotif => (.success, d)
  | (s, d), .timerFire captured =>
    if captured = .waitingForConnection then (s, true) else (s, d)
  | (s, d), .dialogCancel => if d then (.error, false) else (s, d)
  | (s, d), .dialogProceed => if d then (.success, false) else (s, d)

/-- The `currentState` value the timer closure actually captures in the
source: `sendWiFiCredentials` is the submit handler of the form rendered only
while `currentState` is `configuringWiFi`, so the closure that later runs as
the `setTimeout` callback holds that stale value — the
`setCurrentState(waitingForConnection)` call inside the same handler does not
update the already-captured binding. -/
def timerCapturedState : SetupState := .configuringWiFi

/-- Outcome of the single read of the CE01 list characteristic inside
`BLEManager.readWiFiList`. -/
inductive ListReadOutcome
  | ok (payload : List Nat)
  | noChar
  | err
deriving DecidableEq

/-- `BLEManager.readWiFiList` (`BLEManager.ts:172-217`): a successful read is
parsed; when no CE01 characteristic yields a value the hard-coded mock list
is returned; a thrown error is absorbed into the hard-coded error list. -/
def readWiFiList : ListReadOutcome → List (List Nat)
  | .ok payload => parseWiFiNetworks payload
  | .noChar =>
    [strBytes ("TestWiFi_1"), strBytes ("TestWiFi_2"), strBytes ("MyRouter")]
  | .err => [strBytes ("ErrorNetwork_1"), strBytes ("ErrorNetwork_2")]

/-- The list payload of the C1 scenario: `"Home\x06Office\x06\x00Guest\x00"`. -/
def listPayloadEx : List Nat :=
  strBytes ("Home") ++ [6] ++ strBytes ("Office") ++ [6, 0] ++
    strBytes ("Guest") ++ [0]

/-- A 3-byte network name (`A` followed by two digits), all distinct for
`i < 100`. -/
def seg3 (i : Nat) : List Nat := [65, 48 + i / 10, 48 + i % 10]

/-- A payload holding 21 distinct valid 0x06-separated network names. -/
def bigPayload : List Nat := List.intercalate [6] ((List.range 21).map seg3)

/-- The scan scenario advertisement `{id:"AA:BB", name:"GC-XYZ123", rssi:-60}`. -/
def adEx : ScannedAd :=
  { id := strBytes ("AA:BB"), name := some (strBytes ("GC-XYZ123")),
    rssi := some (-60) }

/-- The device `scanForDevices` surfaces for `adEx`. -/
def devEx : ESP32Device :=
  { id := strBytes ("AA:BB"), name := strBytes ("GC-XYZ123"), rssi := -60,
    serialNumber := some (strBytes ("XYZ123")) }

/-- A second concrete advertisement, `GC-DEF456`. -/
def adEx2 : ScannedAd :=
  { id := strBytes ("11:22"), name := some (strBytes ("GC-DEF456")),
    rssi := none }

/-- The device `scanForDevices` surfaces for `adEx2` (null RSSI defaults to
-100). -/
def devEx2 : ESP32Device :=
  { id := strBytes ("11:22"), name := strBytes ("GC-DEF456"), rssi := -100,
    serialNumber := some (strBytes ("DEF456")) }

theorem b64Val_b64Char : ∀ n, n < 64 → b64Val (b64Char n) = n := by decide

theorem b64Char_ne_61 : ∀ n, n < 64 → b64Char n ≠ 61 := by decide

theorem atob_btoa : ∀ l : List Nat, (∀ b ∈ l, b < 256) → atob (btoa l) = l
  | [], _ => rfl
  | [b1], h => by
    have hb1 : b1 < 256 := h b1 (by simp)
    simp only [btoa, atob, if_true]
    rw [b64Val_b64Char _ (by omega), b64Val_b64Char _ (by omega)]
    simp only [List.cons.injEq, and_true]
    omega
  | [b1, b2], h => by
    have hb1 : b1 < 256 := h b1 (by simp)
    have hb2 : b2 < 256 := h b2 (by simp)
    simp only [btoa, atob]
    rw [if_neg (b64Char_ne_61 _ (by omega))]
    simp only [if_true]
    rw [b64Val_b64Char _ (by omega), b64Val_b64Char _ (by omega),
        b64Val_b64Char _ (by omega)]
    simp only [List.cons.injEq, and_true]
    exact ⟨by omega, by omega⟩
  | b1 :: b2 :: b3 :: rest, h => by
    have hb1 : b1 < 256 := h b1 (by simp)
    have hb2 : b2 < 256 := h b2 (by simp)
    have hb3 : b3 < 256 := h b3 (by simp)
    have ih := atob_btoa rest (fun b hb => h b (by simp [hb]))
    simp only [btoa, atob]
    rw [if_neg (b64Char_ne_61 _ (by omega)), if_neg (b64Char_ne_61 _ (by omega))]
    rw [b64Val_b64Char _ (by omega), b64Val_b64Char _ (by omega),
        b64Val_b64Char _ (by omega), b64Val_b64Char _ (by omega)]
    rw [ih]
    simp only [List.cons.injEq, and_true]
    exact ⟨by omega, by omega, by omega⟩

theorem jsIncludes_self (l : List Nat) : jsIncludes l l = true := by
  unfold jsIncludes
  rw [List.any_eq_true]
  exact ⟨0, by simp, by simp⟩

theorem isJsWs_jsToLower (c : Nat) : isJsWs (jsToLower c) = isJsWs c := by
  unfold jsToLower isJsWs
  split_ifs with h1 h2
  · rw [decide_eq_decide]; omega
  · rw [decide_eq_decide]; omega
  · rfl

theorem jsTrim_map_jsToLower (s : List Nat) :
    jsTrim (s.map jsToLower) = (jsTrim s).map jsToLower := by
  have hws : (isJsWs ∘ jsToLower) = isJsWs := funext isJsWs_jsToLower
  unfold jsTrim
  rw [List.dropWhile_map, hws, ← List.map_reverse, List.dropWhile_map, hws,
      ← List.map_reverse]

theorem replaceFirst_drop (pat s : List Nat) (h : jsStartsWith pat s = true) :
    replaceFirst pat [] s = s.drop pat.length := by
  cases s with
  | nil =>
    simp only [replaceFirst, List.drop_nil]
    split <;> rfl
  | cons c rest =>
    simp only [replaceFirst, if_pos h, List.nil_append]

theorem keepFirstsAux_length_le (l : List (List Nat)) :
    ∀ seen, (keepFirstsAux seen l).length ≤ l.length := by
  induction l with
  | nil => intro seen; simp [keepFirstsAux]
  | cons x xs ih =>
    intro seen
    by_cases hx : x ∈ seen
    · simp only [keepFirstsAux, if_pos hx, List.length_cons]
      exact le_trans (ih _) (Nat.le_succ _)
    · simp only [keepFirstsAux, if_neg hx, List.length_cons]
      exact Nat.succ_le_succ (ih _)


theorem isWifiOk_eq_amended (msg : List Nat) :
    isWifiOk msg = wifiConfirmedAmended msg := by
  unfold isWifiOk wifiConfirmedAmended
  rw [Bool.eq_iff_iff]
  simp only [Bool.or_eq_true]
  constructor
  · intro h
    rcases h with ((((((h | h) | h) | h) | h) | h) | h) | h
    · tauto
    · tauto
    · tauto
    · have hfact : jsIncludes (lowerOf msg) (strBytes ("wifi_ok")) = true := by
        rw [beq_iff_eq.mp h]; exact jsIncludes_self _
      tauto
    · tauto
    · have hl : lowerOf msg = strBytes ("wifi_ok") := by
        unfold lowerOf
        rw [jsTrim_map_jsToLower, beq_iff_eq.mp h]
        decide
      have hfact : jsIncludes (lowerOf msg) (strBytes ("wifi_ok")) = true := by
        rw [hl]; exact jsIncludes_self _
      tauto
    · have hl : lowerOf msg = strBytes ("wifi_ok") := by
        unfold lowerOf
        rw [jsTrim_map_jsToLower, beq_iff_eq.mp h]
        decide
      have hfact : jsIncludes (lowerOf msg) (strBytes ("wifi_ok")) = true := by
        rw [hl]; exact jsIncludes_self _
      tauto
    · have hl : lowerOf msg = strBytes ("ok") := by
        unfold lowerOf
        rw [jsTrim_map_jsToLower, beq_iff_eq.mp h]
        decide
      have hfact : (lowerOf msg == strBytes ("ok")) = true := by
        rw [hl]; exact beq_self_eq_true _
      tauto
  · intro h
    rcases h with ((h | h) | h) | h
    · tauto
    · tauto
    · tauto
    · tauto

theorem dedupFirst_filter (a : List Nat) (l : List (List Nat)) :
    (dedupFirst l).filter (fun y => y != a) =
      dedupFirst (l.filter fun y => y != a) := by
  induction l with
  | nil => rfl
  | cons x xs ih =>
    by_cases hxa : x = a
    · subst hxa
      simp only [dedupFirst, List.filter_cons, bne_self_eq_false, if_neg,
        Bool.false_eq_true, not_false_eq_true, List.filter_filter,
        Bool.and_self]
      exact ih
    · have hbne : (x != a) = true := by simp [hxa]
      simp only [dedupFirst, List.filter_cons, hbne, if_pos, List.filter_filter]
      rw [← ih, List.filter_filter]
      congr 1
      exact List.filter_congr fun y _ => Bool.and_comm _ _

theorem keepFirstsAux_eq (l : List (List Nat)) :
    ∀ seen, keepFirstsAux seen l =
      dedupFirst (l.filter fun y => decide (y ∉ seen)) := by
  induction l with
  | nil => intro seen; rfl
  | cons x xs ih =>
    intro seen
    by_cases hx : x ∈ seen
    · have hd : decide (x ∉ seen) = false := by simp [hx]
      have hcong :
          ∀ y ∈ xs, decide (y ∉ seen ++ [x]) = decide (y ∉ seen) := by
        intro y _
        rw [decide_eq_decide]
        simp only [List.mem_append, List.mem_singleton]
        constructor
        · intro hy hmem
          exact hy (Or.inl hmem)
        · rintro hy (hmem | rfl)
          · exact hy hmem
          · exact hy hx
      simp only [keepFirstsAux, if_pos hx, List.filter_cons, hd,
        Bool.false_eq_true, not_false_eq_true, if_neg]
      rw [ih (seen ++ [x]), List.filter_congr hcong]
    · have hd : decide (x ∉ seen) = true := by simp [hx]
      have hcong : ∀ y ∈ xs,
          decide (y ∉ seen ++ [x]) = ((y != x) && decide (y ∉ seen)) := by
        intro y _
        by_cases h1 : y = x
        · subst h1
          simp [List.mem_append]
        · by_cases h2 : y ∈ seen
          · simp [List.mem_append, h1, h2]
          · simp [List.mem_append, h1, h2]
      simp only [keepFirstsAux, if_neg hx, List.filter_cons, hd, if_pos]
      rw [ih (seen ++ [x]), List.filter_congr hcong]
      rw [dedupFirst]
      congr 1
      rw [dedupFirst_filter x (xs.filter fun y => decide (y ∉ seen)),
        List.filter_filter]

/-- C1: for every payload containing the 0x06 separator byte,
`parseWiFiNetworks` splits on 0x06 and returns exactly the segments that,
after stripping embedded 0x00 bytes and surrounding whitespace, have length
in [3,32], in original order, deduplicated preserving first occurrence. -/
theorem c1_parseWiFiNetworks_sep06 (raw : List Nat) (h : raw.contains 6 = true) :
    parseWiFiNetworks raw = specParse06 raw := by
  unfold parseWiFiNetworks specParse06
  rw [if_pos h, keepFirstsAux_eq]
  congr 1
  simp

/-- C1 witness: the payload `"Home\x06Office\x06\x00Guest\x00"` contains 0x06
and parses to `["Home","Office","Guest"]`. -/
theorem c1_parseWiFiNetworks_sep06_witness :
    listPayloadEx.contains 6 = true ∧
      parseWiFiNetworks listPayloadEx =
        [strBytes ("Home"), strBytes ("Office"), strBytes ("Guest")] :=
  ⟨by decide, by
    rw [c1_parseWiFiNetworks_sep06 listPayloadEx (by decide)]
    decide⟩

/-- C2 counterexample: `"all ok"` contains `ok` as a whole-word substring of
its lowercased+trimmed form, so the claim classifies it as WiFi-confirmed,
but the code classifies it as Other and passes it through. -/
theorem c2_counterexample :
    wifiConfirmedClaim (strBytes ("all ok")) = true ∧
      classifyNotification (strBytes ("all ok")) =
        NotificationEvent.other (strBytes ("all ok")) := by decide

/-- C2 (amended): the classifier lowercases and trims the payload and reports
WiFi-confirmed iff the result contains `wifi_ok`, `wifi ok` or `wifiok` as a
plain substring or equals `ok`; any other text is passed through unfiltered. -/
theorem c2_classify_amended (msg : List Nat) :
    classifyNotification msg =
      if wifiConfirmedAmended msg then NotificationEvent.wifiConfirmed
      else NotificationEvent.other msg := by
  unfold classifyNotification
  rw [isWifiOk_eq_amended]

/-- C3: the credential frame for any `(ssid, password)` of bytes is the
literal sequence `"_UWF:" + ssid + 0x06 + password + 0x04`, base64-encoded
before the characteristic write, and decoding the transport encoding
recovers exactly that frame. -/
theorem c3_credentialFrame_roundtrip (ssid password : List Nat)
    (hs : ∀ b ∈ ssid, b < 256) (hp : ∀ b ∈ password, b < 256) :
    configureWiFiPayload ssid password =
      btoa (strBytes ("_UWF:") ++ ssid ++ [6] ++ password ++ [4]) ∧
    atob (configureWiFiPayload ssid password) =
      strBytes ("_UWF:") ++ ssid ++ [6] ++ password ++ [4] := by
  have hcmd : ∀ b ∈ credentialCommand ssid password, b < 256 := by
    intro b hb
    unfold credentialCommand at hb
    simp only [List.mem_append, List.mem_singleton] at hb
    rcases hb with (((hb | hb) | hb) | hb) | hb
    · exact (by decide : ∀ c ∈ strBytes ("_UWF:"), c < 256) b hb
    · exact hs b hb
    · omega
    · exact hp b hb
    · omega
  exact ⟨rfl, atob_btoa _ hcmd⟩

/-- C3 witness: encoding the frame for `(ssid="Home", password="secret1")`
and decoding the transport encoding yields exactly
`"_UWF:Home" + 0x06 + "secret1" + 0x04`. -/
theorem c3_credentialFrame_roundtrip_witness :
    (∀ b ∈ strBytes ("Home"), b < 256) ∧
    atob (configureWiFiPayload (strBytes ("Home")) (strBytes ("secret1"))) =
      strBytes ("_UWF:Home") ++ [6] ++ strBytes ("secret1") ++ [4] := by
  refine ⟨by decide, ?_⟩
  have h := (c3_credentialFrame_roundtrip (strBytes ("Home"))
    (strBytes ("secret1")) (by decide) (by decide)).2
  rw [h]
  decide

/-- C4: the claim (and the code's own timeout messaging and
`showManualProceedDialog`) require the run to end in the failed state when no
confirmation arrives within 40000ms, but the timer callback's guard compares
the stale closure-captured `currentState` (always `configuringWiFi`) with
`waitingForConnection`: firing the timer with the actually-captured state
changes nothing — the dialog is never shown and the state silently stays
`waitingForConnection` instead of becoming the failed state. -/
theorem c4_timeout_inert :
    (∀ s : SetupState, ∀ d : Bool,
      waitStep (s, d) (WaitEvent.timerFire timerCapturedState) = (s, d)) ∧
    waitStep (SetupState.waitingForConnection, false)
      (WaitEvent.timerFire timerCapturedState) =
      (SetupState.waitingForConnection, false) ∧
    (waitStep (SetupState.waitingForConnection, false)
      (WaitEvent.timerFire timerCapturedState)).1 ≠ SetupState.error :=
  ⟨fun _ _ => rfl, rfl, by decide⟩

/-- C5: in every provisioning session trace of `DeviceDetails`, a credential
write occurs only strictly after the notification listener was armed,
whatever the outcomes of setup, list read, submission and write are. -/
theorem c5_listener_armed_before_write :
    ∀ su rd sb so po st : Bool,
      occursBefore ProvAction.armListener ProvAction.writeCreds false
        (sessionTrace su rd sb so po st) = true := by decide

/-- C6 counterexample: on a failed WiFi-list read the code surfaces hard-coded
non-empty mock lists, not the empty list the claim requires. -/
theorem c6_counterexample :
    readWiFiList ListReadOutcome.err ≠ [] ∧
      readWiFiList ListReadOutcome.noChar ≠ [] := by decide

/-- C6 (amended): on a read error `readWiFiList` surfaces the fixed list
`['ErrorNetwork_1','ErrorNetwork_2']`, when no list characteristic yields a
value it surfaces `['TestWiFi_1','TestWiFi_2','MyRouter']` — both non-empty
mock placeholders, returned instead of aborting the session — and a
successful read is parsed with `parseWiFiNetworks`. -/
theorem c6_readWiFiList_amended :
    readWiFiList ListReadOutcome.err =
      [strBytes ("ErrorNetwork_1"), strBytes ("ErrorNetwork_2")] ∧
    readWiFiList ListReadOutcome.noChar =
      [strBytes ("TestWiFi_1"), strBytes ("TestWiFi_2"), strBytes ("MyRouter")] ∧
    (readWiFiList ListReadOutcome.err ≠ [] ∧
      readWiFiList ListReadOutcome.noChar ≠ []) ∧
    ∀ p, readWiFiList (ListReadOutcome.ok p) = parseWiFiNetworks p :=
  ⟨rfl, rfl, by decide, fun _ => rfl⟩

/-- C7 counterexample: in a fully successful finalization the code writes the
END frame, then registers the device, then disconnects — not the claimed
end-frame, disconnect, register order. -/
theorem c7_counterexample :
    completeSetupTrace true true =
      [ProvAction.writeEnd, ProvAction.registerDevice, ProvAction.disconnect] ∧
    completeSetupTrace true true ≠
      [ProvAction.writeEnd, ProvAction.disconnect, ProvAction.registerDevice] := by
  decide

/-- C7 (amended): finalization performs the END-frame write first, registers
the device server-side before disconnecting, and on any failure ends the
trace by surfacing the error, with no rollback action. -/
theorem c7_finalize_order_amended :
    ∀ endOk regOk : Bool,
      occursBefore ProvAction.writeEnd ProvAction.registerDevice false
        (completeSetupTrace endOk regOk) = true ∧
      occursBefore ProvAction.registerDevice ProvAction.disconnect false
        (completeSetupTrace endOk regOk) = true ∧
      ((endOk && regOk) = true ∨
        (completeSetupTrace endOk regOk).getLast? =
          some ProvAction.surfaceError) := by decide

/-- C8 counterexample: a payload with 21 distinct valid 0x06-separated
segments parses to 21 networks, so the result count is not capped at 20. -/
theorem c8_counterexample : ¬ (parseWiFiNetworks bigPayload).length ≤ 20 := by
  decide

/-- C8 (amended): `parseWiFiNetworks` applies no constant cap; for payloads
containing the 0x06 separator the result count is bounded only by the number
of 0x06-separated segments. -/
theorem c8_no_cap_amended (raw : List Nat) (h : raw.contains 6 = true) :
    (parseWiFiNetworks raw).length ≤ (raw.splitOn 6).length := by
  unfold parseWiFiNetworks
  rw [if_pos h]
  refine le_trans (keepFirstsAux_length_le _ []) ?_
  simpa using List.length_filter_le segmentOk ((raw.splitOn 6).map cleanSegment)

/-- C8 witness: the 21-segment payload contains 0x06 and its parse count is
bounded by its segment count. -/
theorem c8_no_cap_amended_witness :
    bigPayload.contains 6 = true ∧
      (parseWiFiNetworks bigPayload).length ≤ (bigPayload.splitOn 6).length :=
  ⟨by decide, c8_no_cap_amended bigPayload (by decide)⟩

/-- C9: every device surfaced by the scan callback has an advertised name
beginning with the fixed `GC-` prefix, and its serial-number candidate is
exactly the remainder of the name after that prefix. -/
theorem c9_scan_gc_serial (found : List (List Nat)) (ad : ScannedAd)
    (dev : ESP32Device) (h : scanCallback found ad = some dev) :
    ∃ nm, ad.name = some nm ∧ jsStartsWith gcPre nm = true ∧
      dev.serialNumber = some (nm.drop 3) := by
  unfold scanCallback at h
  cases hn : ad.name with
  | none =>
    simp only [hn] at h
    exact Option.noConfusion h
  | some nm =>
    simp only [hn] at h
    by_cases hpre : jsStartsWith gcPre nm = true
    · rw [if_pos hpre] at h
      by_cases hfound : found.contains ad.id = true
      · rw [if_pos hfound] at h; exact Option.noConfusion h
      · rw [if_neg hfound] at h
        by_cases hval :
            validateDeviceRegistration (replaceFirst gcPre [] nm) = true
        · rw [if_pos hval] at h
          injection h with hdev
          refine ⟨nm, rfl, hpre, ?_⟩
          rw [← hdev]
          show some (replaceFirst gcPre [] nm) = some (nm.drop 3)
          exact congrArg some (replaceFirst_drop gcPre nm hpre)
        · rw [if_neg hval] at h; exact Option.noConfusion h
    · rw [if_neg hpre] at h; exact Option.noConfusion h

/-- C9 witness: the advertisement `{id:"AA:BB", name:"GC-XYZ123", rssi:-60}`
is surfaced and its serial number is the remainder `"XYZ123"`. -/
theorem c9_scan_gc_serial_witness :
    (∃ nm, adEx.name = some nm ∧ jsStartsWith gcPre nm = true ∧
      devEx.serialNumber = some (nm.drop 3)) ∧
    devEx.serialNumber = some (strBytes ("XYZ123")) :=
  ⟨c9_scan_gc_serial [] adEx devEx (by decide), by decide⟩

/-- C10: every device surfaced by the scan callback passed the registration
validator: its serial number is defined, has length at least 3, consists only
of characters `A`-`Z` and `0`-`9`, and the advertised name is exactly `GC-`
followed by the serial number. -/
theorem c10_surfaced_validated (found : List (List Nat)) (ad : ScannedAd)
    (dev : ESP32Device) (h : scanCallback found ad = some dev) :
    ∃ s, dev.serialNumber = some s ∧ 3 ≤ s.length ∧
      (∀ c ∈ s, (65 ≤ c ∧ c ≤ 90) ∨ (48 ≤ c ∧ c ≤ 57)) ∧
      dev.name = gcPre ++ s := by
  unfold scanCallback at h
  cases hn : ad.name with
  | none =>
    simp only [hn] at h
    exact Option.noConfusion h
  | some nm =>
    simp only [hn] at h
    by_cases hpre : jsStartsWith gcPre nm = true
    · rw [if_pos hpre] at h
      by_cases hfound : found.contains ad.id = true
      · rw [if_pos hfound] at h; exact Option.noConfusion h
      · rw [if_neg hfound] at h
        by_cases hval :
            validateDeviceRegistration (replaceFirst gcPre [] nm) = true
        · rw [if_pos hval] at h
          injection h with hdev
          have hser : replaceFirst gcPre [] nm = nm.drop 3 :=
            replaceFirst_drop gcPre nm hpre
          rw [hser] at hval
          simp only [validateDeviceRegistration, Bool.and_eq_true,
            decide_eq_true_eq, List.all_eq_true] at hval
          have htake : nm.take 3 = gcPre := by
            unfold jsStartsWith at hpre
            exact beq_iff_eq.mp hpre
          refine ⟨nm.drop 3, ?_, hval.1, fun c hc => hval.2.2 c hc, ?_⟩
          · rw [← hdev]
            show some (replaceFirst gcPre [] nm) = some (nm.drop 3)
            rw [hser]
          · rw [← hdev]
            show nm = gcPre ++ nm.drop 3
            conv_lhs => rw [← List.take_append_drop 3 nm]
            rw [htake]
        · rw [if_neg hval] at h; exact Option.noConfusion h
    · rw [if_neg hpre] at h; exact Option.noConfusion h

/-- C10 witness: the advertisement `GC-DEF456` (null RSSI) is surfaced with a
validated serial number `DEF456` and name `GC-` + serial. -/
theorem c10_surfaced_validated_witness :
    ∃ s, devEx2.serialNumber = some s ∧ 3 ≤ s.length ∧
      (∀ c ∈ s, (65 ≤ c ∧ c ≤ 90) ∨ (48 ≤ c ∧ c ≤ 57)) ∧
      devEx2.name = gcPre ++ s :=
  c10_surfaced_validated [] adEx2 devEx2 (by decide)
